import Mathlib

/-!
Shallow embedding of the core services of the checkoutMCP repository:
`payment_processor.py` (class `PaymentProcessor`) and `tokenizer.py`
(class `PaymentTokenizer`).

Modelling conventions:
* Python dicts used as keyed stores (`self.transactions`, `self.tokens`)
  are insertion-ordered association lists `List (String × α)`.
  `dget`/`dset` mirror Python `dict.get` / `d[k] = v`: a set on an
  existing key replaces the value in place (keeping the key's original
  position, as CPython dicts do), a set on a fresh key appends.
* Python floats (`amount`, `random.random()`) and timestamps compared
  with `>` are modelled as rationals `ℚ`; timestamps that are only
  stored and never inspected are kept as opaque strings.
* Sources of entropy and time — `secrets.token_hex`, `datetime.utcnow`,
  `random.random()`, the sha256 digest — are passed in as explicit
  parameters, since the code only threads their results through.
* Heterogeneous dicts stored in `PaymentProcessor.transactions` (payment
  transactions and refund records share the store) are one structure
  `TxRec` whose always-present keys (`amount`, `currency`,
  `customer_id`, `status`, `message`, `processed_at`) are plain fields
  and whose sometimes-absent keys are `Option` fields defaulting to
  `none` (absent).
-/

namespace CheckoutMCP

/-- `PaymentStatus` enum of `payment_processor.py`. -/
inductive PaymentStatus : Type
  | success
  | failed
  | pending
deriving DecidableEq

/-- The `card_info` sub-dict of a payment transaction. -/
structure CardInfo : Type where
  last_four : String
  card_type : String
deriving DecidableEq

/-- A record stored in `PaymentProcessor.transactions`: either a payment
transaction or a refund record. Keys absent from one of the two shapes
(or only added later, like the refund linkage fields) are `Option`. -/
structure TxRec : Type where
  transaction_id : Option String := none
  refund_id : Option String := none
  original_transaction_id : Option String := none
  token : Option String := none
  amount : ℚ
  currency : String
  customer_id : String
  description : Option (Option String) := none
  status : PaymentStatus
  message : String
  processed_at : String
  card_info : Option CardInfo := none
  refunded : Option Bool := none
deriving DecidableEq

/-- Python `dict.get k`: first (and only) binding of `k`. -/
def dget {α : Type} : List (String × α) → String → Option α
  | [], _ => none
  | (k2, v) :: rest, k => if k2 = k then some v else dget rest k

/-- Python `d[k] = v`: replace in place if `k` is bound, else append
(CPython dicts keep the original position of an overwritten key). -/
def dset {α : Type} : List (String × α) → String → α → List (String × α)
  | [], k, v => [(k, v)]
  | (k2, v2) :: rest, k, v =>
      if k2 = k then (k, v) :: rest else (k2, v2) :: dset rest k v

/-- The transaction store `PaymentProcessor.transactions`. -/
abbrev Store := List (String × TxRec)

/-- The token-metadata dict passed to `process_payment` as `token_data`
(in the repository this is tokenizer output, carrying these two keys). -/
structure TokenMeta : Type where
  last_four_digits : String
  card_type : String
deriving DecidableEq

/-- `PaymentProcessor._simulate_processing`. The value that
`random.random()` would return is the explicit parameter `outcome`;
the code only draws it after all deterministic overrides fail. -/
def simulate_processing (amount : ℚ) (outcome : ℚ) : PaymentStatus × String :=
  if amount = 1/100 then (.failed, "Insufficient funds")
  else if amount = 2/100 then (.failed, "Card declined")
  else if amount = 3/100 then (.pending, "Payment pending verification")
  else if amount ≥ 10000 then (.pending, "Large transaction - manual review required")
  else if outcome < 90/100 then (.success, "Payment processed successfully")
  else if outcome < 95/100 then (.failed, "Card declined by issuer")
  else (.pending, "Payment under review")

/-- `PaymentProcessor.process_payment`. The generated transaction id,
the random draw and the `datetime.utcnow().isoformat()` timestamp are
parameters (`transaction_id`, `outcome`, `now`). Returns the updated
store and the transaction record the method returns. -/
def process_payment (st : Store) (transaction_id : String) (outcome : ℚ)
    (now : String) (token : String) (amount : ℚ) (currency : String)
    (customer_id : String) (description : Option String)
    (token_data : Option TokenMeta) : Store × TxRec :=
  let sm := simulate_processing amount outcome
  let transaction : TxRec :=
    { transaction_id := some transaction_id
      token := some token
      amount := amount
      currency := currency
      customer_id := customer_id
      description := some description
      status := sm.1
      message := sm.2
      processed_at := now
      card_info := some
        { last_four :=
            match token_data with
            | some td => td.last_four_digits
            | none => "XXXX"
          card_type :=
            match token_data with
            | some td => td.card_type
            | none => "Unknown" } }
  (dset st transaction_id transaction, transaction)

/-- `PaymentProcessor.get_transaction`. -/
def get_transaction (st : Store) (transaction_id : String) : Option TxRec :=
  dget st transaction_id

/-- `PaymentProcessor.get_customer_transactions`: the list comprehension
over `self.transactions.values()` filtered on `customer_id`. -/
def get_customer_transactions (st : Store) (customer_id : String) : List TxRec :=
  (st.map Prod.snd).filter (fun tx => tx.customer_id == customer_id)

/-- The `{"success": False, "message": ...}` dict returned by
`refund_transaction` for a non-success original. -/
structure RefundRejection : Type where
  success : Bool
  message : String
deriving DecidableEq

/-- `PaymentProcessor.refund_transaction`. The generated refund id and
timestamp are parameters. The Python code stores the refund under
`refund_id` and then mutates the original transaction dict in place;
since the store aliases that dict, the net effect on the store is:
the entry at `transaction_id` holds the mutated original (unless
`refund_id` collided with it, in which case the in-place mutation is
invisible because the key was just rebound to the refund dict), and the
entry at `refund_id` holds the refund. `dset` at `transaction_id`
followed by `dset` at `refund_id` reproduces exactly this, including
entry order. -/
def refund_transaction (st : Store) (transaction_id : String)
    (refund_id : String) (now : String) :
    Store × Option (RefundRejection ⊕ TxRec) :=
  match dget st transaction_id with
  | none => (st, none)
  | some transaction =>
    if transaction.status ≠ PaymentStatus.success then
      (st, some (Sum.inl
        { success := false
          message := "Only successful transactions can be refunded" }))
    else
      let refund : TxRec :=
        { refund_id := some refund_id
          original_transaction_id := some transaction_id
          amount := transaction.amount
          currency := transaction.currency
          customer_id := transaction.customer_id
          status := PaymentStatus.success
          message := "Refund processed successfully"
          processed_at := now }
      let st1 := dset st transaction_id
        { transaction with refunded := some true, refund_id := some refund_id }
      (dset st1 refund_id refund, some (Sum.inr refund))

/-- A record stored in `PaymentTokenizer.tokens`. Times that the code
compares (`expires_at`, via `datetime.fromisoformat` then `>`) are `ℚ`. -/
structure TokenData : Type where
  token : String
  card_number_hash : String
  last_four_digits : String
  card_holder : String
  expiry_month : ℤ
  expiry_year : ℤ
  card_type : String
  expires_at : ℚ
  created_at : ℚ
  is_valid : Bool
deriving DecidableEq

/-- The token store `PaymentTokenizer.tokens`. -/
abbrev TokenStore := List (String × TokenData)

/-- A character removed by `re.sub(r"[\s-]", "", ...)`: ASCII whitespace
or a dash. -/
def stripChar (c : Char) : Bool :=
  c == ' ' || c == '\t' || c == '\n' || c == '\r' ||
    c == Char.ofNat 11 || c == Char.ofNat 12 || c == '-'

/-- The cleaned card number: `re.sub(r"[\s-]", "", card_number)`. -/
def clean_number (s : String) : String :=
  String.mk (s.toList.filter (fun c => !(stripChar c)))

/-- `re.match("^p", s)` for a literal pattern `p`: `p` is a prefix of
`s`. Stated on the character lists of the strings. -/
def begWith (s p : String) : Bool :=
  List.isPrefixOf p.toList s.toList

/-- Python `s[-4:]`: the last four characters (whole string if shorter). -/
def lastFour (s : String) : String :=
  String.mk (s.toList.drop (s.toList.length - 4))

/-- `PaymentTokenizer._identify_card_type`: prefix dispatch on the
cleaned number, in source order. `^5[1-5]` is prefix 51..55,
`^3[47]` is prefix 34 or 37, `^6(?:011|5)` is prefix 6011 or 65. -/
def identify_card_type (card_number : String) : String :=
  let n := clean_number card_number
  if begWith n "4" then "Visa"
  else if begWith n "51" || begWith n "52" || begWith n "53" ||
      begWith n "54" || begWith n "55" then "Mastercard"
  else if begWith n "34" || begWith n "37" then "American Express"
  else if begWith n "6011" || begWith n "65" then "Discover"
  else "Unknown"

/-- The dict `tokenize_card` returns to its caller. -/
structure TokenizeResult : Type where
  token : String
  last_four_digits : String
  card_type : String
  expires_at : ℚ
deriving DecidableEq

/-- `PaymentTokenizer.tokenize_card`. The generated token
(`_generate_token`), sha256 digest and current time are parameters
(`genToken`, `hashHex`, `now`). `card_number[-4:]` is
`lastFour card_number`: the raw argument, not the cleaned number.
`cvv` is accepted and never stored, as in the source. -/
def tokenize_card (st : TokenStore) (genToken : String) (hashHex : String)
    (now : ℚ) (card_number : String) (card_holder : String)
    (expiry_month : ℤ) (expiry_year : ℤ) (cvv : String) :
    TokenStore × TokenizeResult :=
  let token := genToken
  let card_type := identify_card_type card_number
  let last_four := lastFour card_number
  let expires_at := now + 24 * 3600
  let token_data : TokenData :=
    { token := token
      card_number_hash := hashHex
      last_four_digits := last_four
      card_holder := card_holder
      expiry_month := expiry_month
      expiry_year := expiry_year
      card_type := card_type
      expires_at := expires_at
      created_at := now
      is_valid := true }
  (dset st token token_data,
   { token := token
     last_four_digits := last_four
     card_type := card_type
     expires_at := expires_at })

/-- `PaymentTokenizer.validate_token`. Current time is the parameter
`now`; `datetime.utcnow() > expires_at` is `expires_at < now`. Returns
the (possibly mutated) store and the result. -/
def validate_token (st : TokenStore) (now : ℚ) (token : String) :
    TokenStore × Option TokenData :=
  match dget st token with
  | none => (st, none)
  | some token_data =>
    if !token_data.is_valid then (st, none)
    else if token_data.expires_at < now then
      (dset st token { token_data with is_valid := false }, none)
    else (st, some token_data)

/-- `PaymentTokenizer.get_token_info`: `self.tokens.get(token)`,
no mutation, no expiry check. -/
def get_token_info (st : TokenStore) (token : String) : Option TokenData :=
  dget st token

/-! ### Store lemmas -/

theorem dget_dset_self {α : Type} (st : List (String × α)) (k : String) (v : α) :
    dget (dset st k v) k = some v := by
  induction st with
  | nil => simp [dget, dset]
  | cons hd tl ih =>
    obtain ⟨k2, v2⟩ := hd
    by_cases h : k2 = k
    · simp [dset, h, dget]
    · simp [dset, h, dget, ih]

theorem dget_dset_ne {α : Type} (st : List (String × α)) {k k2 : String} (v : α)
    (h : k2 ≠ k) : dget (dset st k v) k2 = dget st k2 := by
  have h2k : ¬ k = k2 := fun hh => h hh.symm
  induction st with
  | nil => simp [dget, dset, h2k]
  | cons hd tl ih =>
    obtain ⟨k3, v3⟩ := hd
    by_cases h3 : k3 = k
    · subst h3
      simp [dset, dget, h2k, h]
    · by_cases h2 : k3 = k2 <;> simp [dset, dget, h3, h2, h, ih]

theorem dget_mem {α : Type} {st : List (String × α)} {k : String} {v : α}
    (h : dget st k = some v) : v ∈ st.map Prod.snd := by
  induction st with
  | nil => simp [dget] at h
  | cons hd tl ih =>
    obtain ⟨k2, v2⟩ := hd
    by_cases h2 : k2 = k
    · simp [dget, h2] at h
      simp [h]
    · simp [dget, h2] at h
      simp [ih h]

/-! ### Claim theorems -/

/-- C1: the `(status, message)` outcome of `process_payment` equals
`simulate_processing amount outcome` — independent of token, customer
and currency — and `simulate_processing` checks the deterministic
overrides before the random draw, in priority order and with exact
equality on `amount`: `0.01 ↦ (failed, Insufficient funds)`,
`0.02 ↦ (failed, Card declined)`, `0.03 ↦ (pending, Payment pending
verification)`, `≥ 10000 ↦ (pending, Large transaction - manual review
required)`; otherwise the uniform draw `outcome ∈ [0,1)` decides:
`< 0.90` success, `[0.90, 0.95)` failed, `[0.95, 1)` pending, with the
stated messages. -/
theorem c1_process_payment_outcome (st : Store)
    (txid now token currency customer_id : String)
    (description : Option String) (td : Option TokenMeta)
    (amount outcome : ℚ) (h0 : 0 ≤ outcome) (h1 : outcome < 1) :
    ((process_payment st txid outcome now token amount currency customer_id
        description td).2.status,
     (process_payment st txid outcome now token amount currency customer_id
        description td).2.message) = simulate_processing amount outcome
    ∧ (amount = 1/100 →
        simulate_processing amount outcome
          = (PaymentStatus.failed, "Insufficient funds"))
    ∧ (amount = 2/100 →
        simulate_processing amount outcome
          = (PaymentStatus.failed, "Card declined"))
    ∧ (amount = 3/100 →
        simulate_processing amount outcome
          = (PaymentStatus.pending, "Payment pending verification"))
    ∧ (amount ≠ 1/100 → amount ≠ 2/100 → amount ≠ 3/100 → 10000 ≤ amount →
        simulate_processing amount outcome
          = (PaymentStatus.pending, "Large transaction - manual review required"))
    ∧ (amount ≠ 1/100 → amount ≠ 2/100 → amount ≠ 3/100 → amount < 10000 →
        outcome < 90/100 →
        simulate_processing amount outcome
          = (PaymentStatus.success, "Payment processed successfully"))
    ∧ (amount ≠ 1/100 → amount ≠ 2/100 → amount ≠ 3/100 → amount < 10000 →
        90/100 ≤ outcome → outcome < 95/100 →
        simulate_processing amount outcome
          = (PaymentStatus.failed, "Card declined by issuer"))
    ∧ (amount ≠ 1/100 → amount ≠ 2/100 → amount ≠ 3/100 → amount < 10000 →
        95/100 ≤ outcome →
        simulate_processing amount outcome
          = (PaymentStatus.pending, "Payment under review")) := by
  refine ⟨rfl, ?_, ?_, ?_, ?_, ?_, ?_, ?_⟩
  · intro h
    norm_num [simulate_processing, h]
  · intro h
    norm_num [simulate_processing, h]
  · intro h
    norm_num [simulate_processing, h]
  · intro e1 e2 e3 hge
    simp only [simulate_processing, if_neg e1, if_neg e2, if_neg e3]
    rw [if_pos hge]
  · intro e1 e2 e3 hlt hu
    simp only [simulate_processing, if_neg e1, if_neg e2, if_neg e3]
    rw [if_neg (by simpa [not_le] using hlt), if_pos hu]
  · intro e1 e2 e3 hlt hu1 hu2
    simp only [simulate_processing, if_neg e1, if_neg e2, if_neg e3]
    rw [if_neg (by simpa [not_le] using hlt),
      if_neg (by simpa [not_lt] using hu1), if_pos hu2]
  · intro e1 e2 e3 hlt hu
    simp only [simulate_processing, if_neg e1, if_neg e2, if_neg e3]
    rw [if_neg (by simpa [not_le] using hlt),
      if_neg (by simp [not_lt]; linarith), if_neg (by simp [not_lt]; linarith)]

/-- C1 witness: at `amount = 0.01` the outcome is
`(failed, "Insufficient funds")` regardless of the draw. -/
theorem c1_witness :
    simulate_processing (1/100) (1/2)
      = (PaymentStatus.failed, "Insufficient funds") :=
  (c1_process_payment_outcome [] "t" "n" "tok" "USD" "c" none none
      (1/100) (1/2) (by norm_num) (by norm_num)).2.1 rfl

/-- C2: `refund_transaction` on an id absent from the store returns
absence (`none`) and leaves the store unchanged; on a stored transaction
whose status is not `success` it returns the structured negative result
`{success := false, message := "Only successful transactions can be
refunded"}` and leaves the store unchanged (no refund record created,
original not mutated); the two outcomes are distinguishable, `none`
never being equal to a `some (Sum.inl rejection)` result. -/
theorem c2_refund_not_found_vs_not_refundable (st : Store)
    (txid rid now : String) :
    (dget st txid = none →
      refund_transaction st txid rid now = (st, none))
    ∧ (∀ tx : TxRec, dget st txid = some tx →
        tx.status ≠ PaymentStatus.success →
        refund_transaction st txid rid now =
          (st, some (Sum.inl
            { success := false
              message := "Only successful transactions can be refunded" })))
    ∧ (∀ r : RefundRejection,
        (none : Option (RefundRejection ⊕ TxRec)) ≠ some (Sum.inl r)) := by
  refine ⟨?_, ?_, ?_⟩
  · intro h
    simp [refund_transaction, h]
  · intro tx htx hs
    simp [refund_transaction, htx, hs]
  · intro r
    simp

/-- Abbreviation (for the proofs below) of the refund-record literal
built in the success branch of `refund_transaction`. -/
def refundRec (transaction_id refund_id now : String) (tx : TxRec) : TxRec :=
  { refund_id := some refund_id
    original_transaction_id := some transaction_id
    amount := tx.amount
    currency := tx.currency
    customer_id := tx.customer_id
    status := PaymentStatus.success
    message := "Refund processed successfully"
    processed_at := now }

/-- Unfolding of the success branch of `refund_transaction`. -/
theorem refund_transaction_success_eq (st : Store) (txid rid now : String)
    (tx : TxRec) (htx : dget st txid = some tx)
    (hs : tx.status = PaymentStatus.success) :
    refund_transaction st txid rid now =
      (dset (dset st txid
          { tx with refunded := some true, refund_id := some rid }) rid
        (refundRec txid rid now tx),
       some (Sum.inr (refundRec txid rid now tx))) := by
  simp only [refund_transaction, htx]
  rw [if_neg (by simp [hs])]
  rfl

/-- C2 witness: a store holding one failed transaction under `"t1"`. -/
theorem c2_witness :
    refund_transaction
      [("t1", { amount := 5, currency := "USD", customer_id := "c1",
                status := PaymentStatus.failed, message := "m",
                processed_at := "p" })] "t1" "r1" "n" =
    ([("t1", { amount := 5, currency := "USD", customer_id := "c1",
               status := PaymentStatus.failed, message := "m",
               processed_at := "p" })],
     some (Sum.inl
       { success := false
         message := "Only successful transactions can be refunded" })) :=
  (c2_refund_not_found_vs_not_refundable
      [("t1", { amount := 5, currency := "USD", customer_id := "c1",
                status := PaymentStatus.failed, message := "m",
                processed_at := "p" })] "t1" "r1" "n").2.1
    { amount := 5, currency := "USD", customer_id := "c1",
      status := PaymentStatus.failed, message := "m", processed_at := "p" }
    rfl (by decide)

/-- C3: `refund_transaction` on a stored transaction with status
`success` returns a refund record with status `success` and
`original_transaction_id` equal to the input id, stores it under the
freshly generated refund id, and rebinds the original transaction with
`refunded := true` and `refund_id :=` the new refund id, all other
fields kept; a second refund call on the same id again takes the
success branch, stores a second refund record, and overwrites the
original's `refund_id` with the second refund id. -/
theorem c3_refund_success_and_double_refund (st : Store)
    (txid rid rid2 now now2 : String) (tx : TxRec)
    (htx : dget st txid = some tx) (hs : tx.status = PaymentStatus.success)
    (hne : rid ≠ txid) (hne2 : rid2 ≠ txid) :
    ∃ st1 refund,
      refund_transaction st txid rid now = (st1, some (Sum.inr refund))
      ∧ refund.status = PaymentStatus.success
      ∧ refund.original_transaction_id = some txid
      ∧ dget st1 rid = some refund
      ∧ dget st1 txid =
          some { tx with refunded := some true, refund_id := some rid }
      ∧ ∃ st2 refund2,
          refund_transaction st1 txid rid2 now2 = (st2, some (Sum.inr refund2))
          ∧ refund2.status = PaymentStatus.success
          ∧ refund2.original_transaction_id = some txid
          ∧ dget st2 rid2 = some refund2
          ∧ dget st2 txid =
              some { tx with refunded := some true, refund_id := some rid2 } := by
  have hbody := refund_transaction_success_eq st txid rid now tx htx hs
  refine ⟨_, _, hbody, rfl, rfl, dget_dset_self _ _ _, ?_, ?_⟩
  · rw [dget_dset_ne _ _ (fun h => hne h.symm)]
    exact dget_dset_self _ _ _
  · have htx1 : dget (dset (dset st txid
        { tx with refunded := some true, refund_id := some rid }) rid
        (refundRec txid rid now tx)) txid =
        some { tx with refunded := some true, refund_id := some rid } := by
      rw [dget_dset_ne _ _ (fun h => hne h.symm)]
      exact dget_dset_self _ _ _
    have hbody2 := refund_transaction_success_eq _ txid rid2 now2
      { tx with refunded := some true, refund_id := some rid } htx1 hs
    refine ⟨_, _, hbody2, rfl, rfl, dget_dset_self _ _ _, ?_⟩
    rw [dget_dset_ne _ _ (fun h => hne2 h.symm)]
    exact dget_dset_self _ _ _

/-- C3 witness: a one-element store holding a success transaction. -/
theorem c3_witness :
    ∃ st1 refund,
      refund_transaction
        [("t1", { amount := 5, currency := "USD", customer_id := "c1",
                  status := PaymentStatus.success, message := "m",
                  processed_at := "p" })] "t1" "r1" "n" =
        (st1, some (Sum.inr refund))
      ∧ refund.status = PaymentStatus.success
      ∧ refund.original_transaction_id = some "t1"
      ∧ dget st1 "r1" = some refund
      ∧ dget st1 "t1" =
          some { amount := 5, currency := "USD", customer_id := "c1",
                 status := PaymentStatus.success, message := "m",
                 processed_at := "p", refunded := some true,
                 refund_id := some "r1" }
      ∧ ∃ st2 refund2,
          refund_transaction st1 "t1" "r2" "n2" = (st2, some (Sum.inr refund2))
          ∧ refund2.status = PaymentStatus.success
          ∧ refund2.original_transaction_id = some "t1"
          ∧ dget st2 "r2" = some refund2
          ∧ dget st2 "t1" =
              some { amount := 5, currency := "USD", customer_id := "c1",
                     status := PaymentStatus.success, message := "m",
                     processed_at := "p", refunded := some true,
                     refund_id := some "r2" } :=
  c3_refund_success_and_double_refund
    [("t1", { amount := 5, currency := "USD", customer_id := "c1",
              status := PaymentStatus.success, message := "m",
              processed_at := "p" })] "t1" "r1" "r2" "n" "n2"
    { amount := 5, currency := "USD", customer_id := "c1",
      status := PaymentStatus.success, message := "m", processed_at := "p" }
    rfl rfl (by decide) (by decide)

/-- C4: `validate_token` returns the stored record exactly when the
token is present, its `is_valid` flag is true and the current time is
not past `expires_at`; it returns absence for an unknown token, for a
record already marked invalid, and for an expired record — in the
expired case flipping the stored `is_valid` to false, observable on a
subsequent `get_token_info`; `get_token_info` itself is the bare store
lookup (no expiry check, no mutation), returning the stored record —
stale validity flag included — or absence. -/
theorem c4_validate_token_and_get_token_info (st : TokenStore) (now : ℚ)
    (tok : String) :
    (dget st tok = none → validate_token st now tok = (st, none))
    ∧ (∀ td : TokenData, dget st tok = some td → td.is_valid = false →
        validate_token st now tok = (st, none))
    ∧ (∀ td : TokenData, dget st tok = some td → td.is_valid = true →
        td.expires_at < now →
        validate_token st now tok =
          (dset st tok { td with is_valid := false }, none)
        ∧ get_token_info (validate_token st now tok).1 tok =
            some { td with is_valid := false })
    ∧ (∀ td : TokenData, dget st tok = some td → td.is_valid = true →
        now ≤ td.expires_at →
        validate_token st now tok = (st, some td))
    ∧ get_token_info st tok = dget st tok := by
  refine ⟨?_, ?_, ?_, ?_, rfl⟩
  · intro h
    simp [validate_token, h]
  · intro td htd hv
    simp [validate_token, htd, hv]
  · intro td htd hv hexp
    have hval : validate_token st now tok =
        (dset st tok { td with is_valid := false }, none) := by
      simp [validate_token, htd, hv, hexp]
    exact ⟨hval, by rw [hval]; exact dget_dset_self _ _ _⟩
  · intro td htd hv hexp
    simp [validate_token, htd, hv, not_lt.mpr hexp]

/-- C4 witness: an expired valid token flips to invalid and the flip is
visible through `get_token_info`. -/
theorem c4_witness :
    validate_token
      [("tk", { token := "tk", card_number_hash := "h",
                last_four_digits := "1111", card_holder := "A",
                expiry_month := 1, expiry_year := 2030,
                card_type := "Visa", expires_at := 10, created_at := 0,
                is_valid := true })] 20 "tk" =
      ([("tk", { token := "tk", card_number_hash := "h",
                 last_four_digits := "1111", card_holder := "A",
                 expiry_month := 1, expiry_year := 2030,
                 card_type := "Visa", expires_at := 10, created_at := 0,
                 is_valid := false })], none)
    ∧ get_token_info
        (validate_token
          [("tk", { token := "tk", card_number_hash := "h",
                    last_four_digits := "1111", card_holder := "A",
                    expiry_month := 1, expiry_year := 2030,
                    card_type := "Visa", expires_at := 10, created_at := 0,
                    is_valid := true })] 20 "tk").1 "tk" =
      some { token := "tk", card_number_hash := "h",
             last_four_digits := "1111", card_holder := "A",
             expiry_month := 1, expiry_year := 2030,
             card_type := "Visa", expires_at := 10, created_at := 0,
             is_valid := false } :=
  (c4_validate_token_and_get_token_info
      [("tk", { token := "tk", card_number_hash := "h",
                last_four_digits := "1111", card_holder := "A",
                expiry_month := 1, expiry_year := 2030,
                card_type := "Visa", expires_at := 10, created_at := 0,
                is_valid := true })] 20 "tk").2.2.1
    { token := "tk", card_number_hash := "h", last_four_digits := "1111",
      card_holder := "A", expiry_month := 1, expiry_year := 2030,
      card_type := "Visa", expires_at := 10, created_at := 0,
      is_valid := true }
    rfl rfl (by norm_num)

/-- C5: the card type `tokenize_card` assigns is
`identify_card_type card_number`, which classifies the cleaned number
(whitespace and dashes stripped) by prefix in this priority order:
"4" is Visa; else "51".."55" is Mastercard; else "34" or "37" is
American Express; else "6011" or "65" is Discover; else Unknown. -/
theorem c5_card_type_priority (st : TokenStore)
    (gen hash ch cvv : String) (now : ℚ) (em ey : ℤ) (n : String) :
    (tokenize_card st gen hash now n ch em ey cvv).2.card_type
      = identify_card_type n
    ∧ (begWith (clean_number n) "4" → identify_card_type n = "Visa")
    ∧ (¬ begWith (clean_number n) "4" →
       (begWith (clean_number n) "51" ∨ begWith (clean_number n) "52" ∨
        begWith (clean_number n) "53" ∨ begWith (clean_number n) "54" ∨
        begWith (clean_number n) "55") →
       identify_card_type n = "Mastercard")
    ∧ (¬ begWith (clean_number n) "4" →
       ¬ (begWith (clean_number n) "51" ∨ begWith (clean_number n) "52" ∨
          begWith (clean_number n) "53" ∨ begWith (clean_number n) "54" ∨
          begWith (clean_number n) "55") →
       (begWith (clean_number n) "34" ∨ begWith (clean_number n) "37") →
       identify_card_type n = "American Express")
    ∧ (¬ begWith (clean_number n) "4" →
       ¬ (begWith (clean_number n) "51" ∨ begWith (clean_number n) "52" ∨
          begWith (clean_number n) "53" ∨ begWith (clean_number n) "54" ∨
          begWith (clean_number n) "55") →
       ¬ (begWith (clean_number n) "34" ∨ begWith (clean_number n) "37") →
       (begWith (clean_number n) "6011" ∨ begWith (clean_number n) "65") →
       identify_card_type n = "Discover")
    ∧ (¬ begWith (clean_number n) "4" →
       ¬ (begWith (clean_number n) "51" ∨ begWith (clean_number n) "52" ∨
          begWith (clean_number n) "53" ∨ begWith (clean_number n) "54" ∨
          begWith (clean_number n) "55") →
       ¬ (begWith (clean_number n) "34" ∨ begWith (clean_number n) "37") →
       ¬ (begWith (clean_number n) "6011" ∨ begWith (clean_number n) "65") →
       identify_card_type n = "Unknown") := by
  refine ⟨rfl, ?_, ?_, ?_, ?_, ?_⟩ <;>
    · intros
      simp only [identify_card_type]
      split_ifs <;> simp_all

/-- C5 witness: "5105 1051 0510 5100" cleans to a "51" prefix and is
classified Mastercard. -/
theorem c5_witness : identify_card_type "5105 1051 0510 5100" = "Mastercard" :=
  (c5_card_type_priority [] "g" "h" "A" "c" 0 1 2030
      "5105 1051 0510 5100").2.2.1 (by decide) (Or.inl (by decide))

/-- C6: `get_customer_transactions` returns exactly the stored records
whose `customer_id` equals the argument — membership both ways — as a
sublist of the store's values in insertion order, and the empty list
when no stored record matches; it takes the store as input and performs
no mutation (its type returns only the list). -/
theorem c6_get_customer_transactions (st : Store) (cid : String) :
    (∀ r : TxRec, r ∈ get_customer_transactions st cid ↔
        (r ∈ st.map Prod.snd ∧ r.customer_id = cid))
    ∧ List.Sublist (get_customer_transactions st cid) (st.map Prod.snd)
    ∧ ((∀ r ∈ st.map Prod.snd, r.customer_id ≠ cid) →
        get_customer_transactions st cid = []) := by
  refine ⟨?_, ?_, ?_⟩
  · intro r
    simp [get_customer_transactions, List.mem_filter]
  · exact List.filter_sublist _
  · intro h
    simp only [get_customer_transactions, List.filter_eq_nil_iff]
    intro r hr
    simpa using h r hr

/-- C6 witness: a two-customer store; the query for "c9" is empty. -/
theorem c6_witness :
    get_customer_transactions
      [("t1", { amount := 5, currency := "USD", customer_id := "c1",
                status := PaymentStatus.failed, message := "m",
                processed_at := "p" })] "c9" = [] :=
  (c6_get_customer_transactions
      [("t1", { amount := 5, currency := "USD", customer_id := "c1",
                status := PaymentStatus.failed, message := "m",
                processed_at := "p" })] "c9").2.2 (by decide)

/-- C7: round trip. Tokenizing a card and then processing a payment of
99.99 with the returned token and metadata yields a stored transaction,
retrievable by `get_transaction` at the returned transaction id, whose
amount is 99.99, whose token is the token used, and whose
`card_info.last_four` is the `last_four_digits` the tokenizer returned. -/
theorem c7_round_trip (tst : TokenStore) (pst : Store)
    (gen hash ch cvv n : String) (tnow : ℚ) (em ey : ℤ)
    (txid pnow currency cid : String) (desc : Option String) (outcome : ℚ) :
    ∃ tx : TxRec,
      get_transaction
        (process_payment pst txid outcome pnow
          (tokenize_card tst gen hash tnow n ch em ey cvv).2.token (9999/100)
          currency cid desc
          (some { last_four_digits :=
              (tokenize_card tst gen hash tnow n ch em ey cvv).2.last_four_digits,
                  card_type :=
              (tokenize_card tst gen hash tnow n ch em ey cvv).2.card_type })).1
        txid = some tx
      ∧ tx.transaction_id = some txid
      ∧ tx.amount = 9999/100
      ∧ tx.token = some (tokenize_card tst gen hash tnow n ch em ey cvv).2.token
      ∧ tx.card_info = some
          { last_four :=
              (tokenize_card tst gen hash tnow n ch em ey cvv).2.last_four_digits,
            card_type :=
              (tokenize_card tst gen hash tnow n ch em ey cvv).2.card_type } :=
  ⟨_, dget_dset_self _ _ _, rfl, rfl, rfl, rfl⟩

/-- C8: transaction status is fixed at creation. With fresh generated
ids, a successful refund rebinds the original transaction to a record
differing only in `refunded` and `refund_id`, leaves every other stored
record untouched, a non-success refund leaves the store unchanged, every
stored record keeps its status (and every other non-linkage field) across
`refund_transaction`, and `process_payment` leaves every existing record
untouched. -/
theorem c8_status_fixed_and_refund_frame (st : Store) (txid rid now : String)
    (tx : TxRec) (htx : dget st txid = some tx) (hrid : dget st rid = none) :
    (tx.status = PaymentStatus.success →
      dget (refund_transaction st txid rid now).1 txid
        = some { tx with refunded := some true, refund_id := some rid }
      ∧ (∀ k tx2, dget st k = some tx2 → k ≠ txid →
          dget (refund_transaction st txid rid now).1 k = some tx2))
    ∧ (tx.status ≠ PaymentStatus.success →
        (refund_transaction st txid rid now).1 = st)
    ∧ (∀ k tx2, dget st k = some tx2 →
        ∃ tx3, dget (refund_transaction st txid rid now).1 k = some tx3
          ∧ tx3.status = tx2.status ∧ tx3.message = tx2.message
          ∧ tx3.transaction_id = tx2.transaction_id ∧ tx3.token = tx2.token
          ∧ tx3.amount = tx2.amount ∧ tx3.currency = tx2.currency
          ∧ tx3.customer_id = tx2.customer_id
          ∧ tx3.description = tx2.description
          ∧ tx3.processed_at = tx2.processed_at
          ∧ tx3.card_info = tx2.card_info)
    ∧ (∀ (txid2 tok cur cid pnow : String) (desc : Option String)
        (td : Option TokenMeta) (amount outcome : ℚ),
        dget st txid2 = none →
        ∀ k tx2, dget st k = some tx2 →
          dget (process_payment st txid2 outcome pnow tok amount cur cid desc
            td).1 k = some tx2) := by
  have hner : rid ≠ txid := by
    intro h
    rw [h, htx] at hrid
    cases hrid
  have hfresh : ∀ k (tx2 : TxRec), dget st k = some tx2 → k ≠ rid := by
    intro k tx2 hk h
    rw [h, hrid] at hk
    cases hk
  refine ⟨?_, ?_, ?_, ?_⟩
  · intro hs
    rw [refund_transaction_success_eq st txid rid now tx htx hs]
    constructor
    · rw [dget_dset_ne _ _ (fun h => hner h.symm)]
      exact dget_dset_self _ _ _
    · intro k tx2 hk hkne
      rw [dget_dset_ne _ _ (hfresh k tx2 hk), dget_dset_ne _ _ hkne]
      exact hk
  · intro hs
    simp [refund_transaction, htx, hs]
  · intro k tx2 hk
    by_cases hstat : tx.status = PaymentStatus.success
    · by_cases hkne : k = txid
      · subst hkne
        have heq : some tx2 = some tx := by rw [← hk, htx]
        obtain rfl : tx2 = tx := Option.some_injective _ heq
        rw [refund_transaction_success_eq st k rid now tx2 hk hstat]
        refine ⟨{ tx2 with refunded := some true, refund_id := some rid },
          ?_, rfl, rfl, rfl, rfl, rfl, rfl, rfl, rfl, rfl, rfl⟩
        rw [dget_dset_ne _ _ (fun h => hner h.symm)]
        exact dget_dset_self _ _ _
      · rw [refund_transaction_success_eq st txid rid now tx htx hstat]
        refine ⟨tx2, ?_, rfl, rfl, rfl, rfl, rfl, rfl, rfl, rfl, rfl, rfl⟩
        rw [dget_dset_ne _ _ (hfresh k tx2 hk), dget_dset_ne _ _ hkne]
        exact hk
    · have hst : (refund_transaction st txid rid now).1 = st := by
        simp [refund_transaction, htx, hstat]
      rw [hst]
      exact ⟨tx2, hk, rfl, rfl, rfl, rfl, rfl, rfl, rfl, rfl, rfl, rfl⟩
  · intro txid2 tok cur cid pnow desc td amount outcome hfresh2 k tx2 hk
    have hkne : k ≠ txid2 := by
      intro h
      rw [h, hfresh2] at hk
      cases hk
    show dget (dset st txid2 _) k = some tx2
    rw [dget_dset_ne _ _ hkne]
    exact hk

/-- C8 witness: refunding a one-element store holding a success
transaction rebinds it with only the linkage fields set. -/
theorem c8_witness :
    dget (refund_transaction
      [("t1", { amount := 5, currency := "USD", customer_id := "c1",
                status := PaymentStatus.success, message := "m",
                processed_at := "p" })] "t1" "r1" "n").1 "t1" =
      some { amount := 5, currency := "USD", customer_id := "c1",
             status := PaymentStatus.success, message := "m",
             processed_at := "p", refunded := some true,
             refund_id := some "r1" } :=
  ((c8_status_fixed_and_refund_frame
      [("t1", { amount := 5, currency := "USD", customer_id := "c1",
                status := PaymentStatus.success, message := "m",
                processed_at := "p" })] "t1" "r1" "n"
      { amount := 5, currency := "USD", customer_id := "c1",
        status := PaymentStatus.success, message := "m",
        processed_at := "p" } rfl rfl).1 rfl).1

/-- C9 counterexample: for the input `"4111 1111 1111 11 11"` the code
returns the last four characters of the raw argument, `"1 11"`, which
differs from `"1111"`, the last four characters of the cleaned number —
refuting the claim that `last_four_digits` always equals the last four
characters of the cleaned card number. -/
theorem c9_counterexample :
    (tokenize_card [] "tok_x" "h" 0 "4111 1111 1111 11 11" "A" 1 2030
        "123").2.last_four_digits = "1 11"
    ∧ lastFour (clean_number "4111 1111 1111 11 11") = "1111"
    ∧ ("1 11" : String) ≠ "1111" :=
  ⟨by decide, by decide, by decide⟩

/-- C9 (amended): the `last_four_digits` value `tokenize_card` returns,
and the one it stores in the token record, equal the last four
characters of the card number exactly as given — raw, with no cleaning —
which coincides with the cleaned number's last four only when the
trailing characters contain no spaces or dashes (as with
boundary-cleaned input). -/
theorem c9_last_four_raw (st : TokenStore)
    (gen hash ch cvv n : String) (now : ℚ) (em ey : ℤ) :
    (tokenize_card st gen hash now n ch em ey cvv).2.last_four_digits
      = lastFour n
    ∧ dget (tokenize_card st gen hash now n ch em ey cvv).1 gen =
        some { token := gen, card_number_hash := hash,
               last_four_digits := lastFour n, card_holder := ch,
               expiry_month := em, expiry_year := ey,
               card_type := identify_card_type n,
               expires_at := now + 24 * 3600, created_at := now,
               is_valid := true } :=
  ⟨rfl, dget_dset_self _ _ _⟩

/-- C10: the refund record a successful `refund_transaction` creates is
stored in the same transaction store under the refund id, with amount,
currency and customer id copied from the original; `get_transaction` at
the refund id returns it, and it appears in
`get_customer_transactions` for the original customer — while carrying
`refund_id` instead of `transaction_id` and no `token` or `card_info`. -/
theorem c10_refund_record_in_store (st : Store) (txid rid now : String)
    (tx : TxRec) (htx : dget st txid = some tx)
    (hs : tx.status = PaymentStatus.success) (hne : rid ≠ txid) :
    ∃ st2 refund,
      refund_transaction st txid rid now = (st2, some (Sum.inr refund))
      ∧ refund.amount = tx.amount
      ∧ refund.currency = tx.currency
      ∧ refund.customer_id = tx.customer_id
      ∧ refund.refund_id = some rid
      ∧ refund.transaction_id = none
      ∧ refund.token = none
      ∧ refund.card_info = none
      ∧ get_transaction st2 rid = some refund
      ∧ refund ∈ get_customer_transactions st2 tx.customer_id := by
  have hbody := refund_transaction_success_eq st txid rid now tx htx hs
  refine ⟨_, _, hbody, rfl, rfl, rfl, rfl, rfl, rfl, rfl,
    dget_dset_self _ _ _, ?_⟩
  have hmem : refundRec txid rid now tx ∈
      (dset (dset st txid
        { tx with refunded := some true, refund_id := some rid }) rid
        (refundRec txid rid now tx)).map Prod.snd :=
    dget_mem (dget_dset_self _ _ _)
  simp only [get_customer_transactions, List.mem_filter]
  exact ⟨hmem, by simp [refundRec]⟩

/-- C10 witness: the refund of a concrete success transaction. -/
theorem c10_witness :
    ∃ st2 refund,
      refund_transaction
        [("t1", { amount := 5, currency := "USD", customer_id := "c1",
                  status := PaymentStatus.success, message := "m",
                  processed_at := "p" })] "t1" "r1" "n" =
        (st2, some (Sum.inr refund))
      ∧ refund.amount = 5
      ∧ refund.currency = "USD"
      ∧ refund.customer_id = "c1"
      ∧ refund.refund_id = some "r1"
      ∧ refund.transaction_id = none
      ∧ refund.token = none
      ∧ refund.card_info = none
      ∧ get_transaction st2 "r1" = some refund
      ∧ refund ∈ get_customer_transactions st2 "c1" :=
  c10_refund_record_in_store
    [("t1", { amount := 5, currency := "USD", customer_id := "c1",
              status := PaymentStatus.success, message := "m",
              processed_at := "p" })] "t1" "r1" "n"
    { amount := 5, currency := "USD", customer_id := "c1",
      status := PaymentStatus.success, message := "m", processed_at := "p" }
    rfl rfl (by decide)

end CheckoutMCP
